import Mathlib

/-!
# Verification of the VAPI transfer-call webhook service

A shallow embedding of `src/app.py`: an HTTP webhook that routes inbound
calls using a company directory.  The HTTP framework (Flask) is treated as
an external layer that delivers the parsed request to the handler and
serializes the returned value, as the specification scopes it; everything
the handler itself decides is modelled faithfully below.
-/

namespace Vapi

/-- A directory entry as it appears in `company_directory.json`.
Both fields are read with `dict.get`, so either may be absent (`none`). -/
structure Employee where
  name : Option String
  phone : Option String
  deriving DecidableEq, Repr

/-- Python truthiness of an optional string: `None` and `""` are falsy.
Used for `if target_number:` and for `not provided_key`. -/
def truthyStr : Option String → Bool
  | none => false
  | some s => s != ""

/-- Rendering of an optional string inside an f-string: Python prints
`None` for an absent value. -/
def pyStr : Option String → String
  | none => "None"
  | some s => s

/-- One endpoint object of a connect action:
`{"type": "phone", "number": ...}`. -/
structure PhoneEndpoint where
  type : String
  number : String
  deriving DecidableEq, Repr

/-- A Voice-API action object, either
`{"action": "talk", "text": ...}` or
`{"action": "connect", "endpoint": [...]}`. -/
inductive Action where
  | talk (text : String)
  | connect (endpoint : List PhoneEndpoint)
  deriving DecidableEq, Repr

/-- The JSON body of an HTTP response produced by the handlers:
either the error object `{"error": msg}` or a list of actions. -/
inductive ResponseBody where
  | error (msg : String)
  | actions (acts : List Action)
  deriving DecidableEq, Repr

/-- An HTTP response: status code plus JSON body. -/
structure Response where
  status : Nat
  body : ResponseBody
  deriving DecidableEq, Repr

/-- One entry of the `app.log` stream.  Entries are modelled structurally
(which call was made with which arguments) rather than as formatted text. -/
inductive LogEntry where
  | unauthorizedAttempt (remote_addr : String)
  | incomingData (data : Option String)
  | routingTo (name number : Option String)
  | noEmployees
  | responding (acts : List Action)
  deriving DecidableEq, Repr

/-- The process-wide state visible to a request handler: the `API_KEY`
configuration value, the `directory` list loaded at startup, and the log
stream.  Handlers receive it and return it, making every write explicit. -/
structure ServerState where
  API_KEY : String
  directory : List Employee
  log : List LogEntry
  deriving DecidableEq, Repr

/-- Append one entry to the log stream. -/
def addLog (st : ServerState) (e : LogEntry) : ServerState :=
  { st with log := st.log ++ [e] }

/-- An inbound HTTP request as delivered by the HTTP layer:
the `X-API-Key` header (`none` when absent), the caller's address, and the
parsed JSON body (`none` when the body is absent or not valid structured
data — the HTTP layer is specified to deliver parsed requests). -/
structure Request where
  x_api_key : Option String
  remote_addr : String
  body : Option String
  deriving DecidableEq, Repr

/-- The guard condition of `require_api_key`:
`if not provided_key or provided_key != API_KEY`. -/
def rejectsKey (API_KEY : String) (provided_key : Option String) : Bool :=
  !truthyStr provided_key || provided_key != some API_KEY

/-- The `require_api_key` decorator: reject with 401 Unauthorized (and an
audit log entry) unless the `X-API-Key` header is truthy and equals
`API_KEY`; otherwise run the wrapped handler. -/
def require_api_key (f : ServerState → Request → Response × ServerState)
    (st : ServerState) (req : Request) : Response × ServerState :=
  let provided_key := req.x_api_key
  if rejectsKey st.API_KEY provided_key then
    (⟨401, ResponseBody.error "Unauthorized"⟩,
      addLog st (LogEntry.unauthorizedAttempt req.remote_addr))
  else
    f st req

/-- The body of the `/webhook` handler (after the API-key guard):
log the incoming data, pick `directory[0]` as the target when the
directory is non-empty, and answer 200 with either a talk-then-connect
script (when the target's phone is truthy) or a single
"no employees available" talk action. -/
def webhook (st : ServerState) (req : Request) : Response × ServerState :=
  let data := req.body
  let st := addLog st (LogEntry.incomingData data)
  let (target_number, target_name, st) :=
    match st.directory with
    | target_employee :: _ =>
        let n := target_employee.phone
        let m := target_employee.name
        (n, m, addLog st (LogEntry.routingTo m n))
    | [] => (none, none, addLog st LogEntry.noEmployees)
  let actions :=
    if truthyStr target_number then
      [Action.talk ("Connecting you to our representative, "
          ++ pyStr target_name ++ "."),
       -- in this branch target_number is some non-empty string,
       -- so the default of getD is never used
       Action.connect [⟨"phone", target_number.getD ""⟩]]
    else
      [Action.talk "No employees are available to take your call at this time."]
  let st := addLog st (LogEntry.responding actions)
  (⟨200, ResponseBody.actions actions⟩, st)

/-- The complete `/webhook` route: the guard wrapped around the handler. -/
def handle_webhook (st : ServerState) (req : Request) : Response × ServerState :=
  require_api_key webhook st req

/-- The request is accepted by the guard (the guard condition is false). -/
def authenticated (st : ServerState) (req : Request) : Bool :=
  !rejectsKey st.API_KEY req.x_api_key

/-! ## Startup directory load

`app.py` loads `company_directory.json` at import time inside a
`try` block that catches exactly `FileNotFoundError` and
`json.JSONDecodeError`, setting `directory = []` in both handlers; any
other exception raised by `open` or `json.load` (for example a
`PermissionError`, or a `UnicodeDecodeError` from a file that is not valid
UTF-8) is caught by neither clause and propagates, aborting startup. -/

/-- The parsed top-level JSON object of `company_directory.json`; the
`employees` key may be absent (`directory_data.get('employees', [])`). -/
structure DirectoryData where
  employees : Option (List Employee)
  deriving DecidableEq, Repr

/-- Outcome of `open('company_directory.json')` followed by
`json.load(f)`, classified by the exception clauses of the source. -/
inductive LoadOutcome where
  | fileNotFound
  | jsonDecodeError
  /-- Any exception other than the two caught ones, e.g. `PermissionError`
  from `open` or `UnicodeDecodeError` from reading a non-UTF-8 file. -/
  | otherError
  | ok (directory_data : DirectoryData)
  deriving DecidableEq, Repr

/-- The outcome is a failure of the read or parse (anything but `ok`). -/
def LoadOutcome.isFailure : LoadOutcome → Bool
  | .ok _ => false
  | _ => true

/-- The startup load: `Except.ok d` means the process starts with
directory `d`; `Except.error ()` means the exception propagates and the
process fails to start. -/
def load_directory : LoadOutcome → Except Unit (List Employee)
  | .fileNotFound => .ok []
  | .jsonDecodeError => .ok []
  | .otherError => .error ()
  | .ok directory_data => .ok (directory_data.employees.getD [])

/-! ## Policy A — named-party lookup

Modelled from the spec: the repository's second file variant (the
named-party webhook, Policy A) is not under `src/`; its router is
reconstructed from spec §4.2 steps 4–6: a case-insensitive exact-match
search over the directory by `name`, first match in directory order wins,
and the outcome is `NotFound` when there is no match or the match has an
empty/absent phone, `Routed` with the match's number otherwise. -/

/-- A tagged routing outcome, as the spec's `RoutingOutcome` data model. -/
inductive RoutingOutcome where
  | Routed (toolCallId number : String)
  | NotFound (toolCallId requestedParty : String)
  | MissingField (field : String)
  | Unauthenticated
  | MalformedBody
  deriving DecidableEq, Repr

/-- ASCII lowercasing of a string, character by character (the behaviour
of Python's `str.lower` on the ASCII names the directory holds). -/
def toLowerStr (s : String) : String :=
  ⟨s.data.map Char.toLower⟩

/-- Case-insensitive exact name match of a directory entry against the
requested party; an entry with no name matches nothing. -/
def nameMatches (e : Employee) (requestedParty : String) : Bool :=
  match e.name with
  | some s => toLowerStr s == toLowerStr requestedParty
  | none => false

/-- Modelled from the spec: Policy A's search-and-route step (spec §4.2
steps 4–6).  The first name match in directory order wins; that single
match is then routed when its phone is truthy and otherwise the outcome
is `NotFound`, as is the no-match case. -/
def route_policy_a (directory : List Employee)
    (toolCallId requestedParty : String) : RoutingOutcome :=
  match directory.find? (fun e => nameMatches e requestedParty) with
  | some e =>
      if truthyStr e.phone then
        RoutingOutcome.Routed toolCallId (e.phone.getD "")
      else
        RoutingOutcome.NotFound toolCallId requestedParty
  | none => RoutingOutcome.NotFound toolCallId requestedParty

/-- The first directory entry that both matches the requested name and
has a truthy phone.  This follows the words of claim C6 (spec §8), to be
compared with `route_policy_a`. -/
def firstEligible (directory : List Employee) (requestedParty : String) :
    Option Employee :=
  directory.find? (fun e => nameMatches e requestedParty && truthyStr e.phone)

/-- Claim C6 as stated, at one directory and request: `Routed` with the
phone of the first name-matching entry that has a non-empty phone, and
`NotFound` exactly when no such entry exists. -/
def c6_asStated (directory : List Employee)
    (toolCallId requestedParty : String) : Bool :=
  match firstEligible directory requestedParty with
  | some e =>
      route_policy_a directory toolCallId requestedParty
        == RoutingOutcome.Routed toolCallId (e.phone.getD "")
  | none =>
      route_policy_a directory toolCallId requestedParty
        == RoutingOutcome.NotFound toolCallId requestedParty

/-! ## Helper lemmas -/

/-- The action list of the webhook response, as a function of the
directory alone (the request never influences it). -/
def webhookActions : List Employee → List Action
  | target_employee :: _ =>
      if truthyStr target_employee.phone then
        [Action.talk ("Connecting you to our representative, "
            ++ pyStr target_employee.name ++ "."),
         Action.connect [⟨"phone", target_employee.phone.getD ""⟩]]
      else
        [Action.talk "No employees are available to take your call at this time."]
  | [] => [Action.talk "No employees are available to take your call at this time."]

lemma rejectsKey_false_of_auth {st : ServerState} {req : Request}
    (h : authenticated st req = true) :
    rejectsKey st.API_KEY req.x_api_key = false := by
  simpa [authenticated] using h

lemma handle_webhook_authed (st : ServerState) (req : Request)
    (h : authenticated st req = true) :
    handle_webhook st req = webhook st req := by
  simp [handle_webhook, require_api_key, rejectsKey_false_of_auth h]

lemma webhook_fst (st : ServerState) (req : Request) :
    (webhook st req).1 = ⟨200, ResponseBody.actions (webhookActions st.directory)⟩ := by
  simp only [webhook, addLog]
  rcases hdir : st.directory with _ | ⟨e, rest⟩ <;>
    simp [hdir, webhookActions, truthyStr]

lemma webhook_snd_preserves (st : ServerState) (req : Request) :
    (webhook st req).2.directory = st.directory ∧
    (webhook st req).2.API_KEY = st.API_KEY := by
  simp only [webhook, addLog]
  rcases hdir : st.directory with _ | ⟨e, rest⟩ <;> simp [hdir]

lemma handle_webhook_preserves (st : ServerState) (req : Request) :
    (handle_webhook st req).2.directory = st.directory ∧
    (handle_webhook st req).2.API_KEY = st.API_KEY := by
  unfold handle_webhook require_api_key
  cases hr : rejectsKey st.API_KEY req.x_api_key
  · simpa [hr] using webhook_snd_preserves st req
  · simp [hr, addLog]

lemma handle_webhook_fst_authed (st : ServerState) (req : Request)
    (h : authenticated st req = true) :
    (handle_webhook st req).1
      = ⟨200, ResponseBody.actions (webhookActions st.directory)⟩ := by
  rw [handle_webhook_authed st req h, webhook_fst]

lemma handle_webhook_fst_congr (st stB : ServerState) (req : Request)
    (hd : stB.directory = st.directory) (hk : stB.API_KEY = st.API_KEY) :
    (handle_webhook stB req).1 = (handle_webhook st req).1 := by
  unfold handle_webhook require_api_key
  rw [hk]
  cases hr : rejectsKey st.API_KEY req.x_api_key
  · simpa [hr, webhook_fst] using congrArg ResponseBody.actions (by rw [hd])
  · simp [hr]

lemma find?_of_clean_front {α : Type} (p : α → Bool) (pre post : List α) (e : α)
    (hpre : ∀ x ∈ pre, p x = false) (he : p e = true) :
    (pre ++ e :: post).find? p = some e := by
  induction pre with
  | nil => simp [List.find?_cons_of_pos, he]
  | cons x xs ih =>
      have hx : p x = false := hpre x (by simp)
      rw [List.cons_append, List.find?_cons_of_neg _ (by simp [hx])]
      exact ih (fun y hy => hpre y (by simp [hy]))

/-! ## Claims -/

/-- Claim C1 as stated, at one server state and request: whenever the
request is authenticated and the directory is non-empty, the response is
the two-element talk-then-connect script for the first entry. -/
def c1_asStated (st : ServerState) (req : Request) : Prop :=
  authenticated st req = true → st.directory ≠ [] →
  ∃ e, st.directory.head? = some e ∧
    (handle_webhook st req).1 = ⟨200, ResponseBody.actions
      [Action.talk ("Connecting you to our representative, "
          ++ pyStr e.name ++ "."),
       Action.connect [⟨"phone", e.phone.getD ""⟩]]⟩

/-- A non-empty directory whose single entry has an empty phone. -/
def c1CexState : ServerState :=
  ⟨"secret-key", [⟨some "Bob", some ""⟩], []⟩

/-- An authenticated request against `c1CexState`. -/
def c1CexReq : Request :=
  ⟨some "secret-key", "203.0.113.7", some "event"⟩

/-- C1 fails as stated: with the non-empty directory
`[Employee.mk (some "Bob") (some "")]` and an authenticated request, the
webhook answers with the single "no employees available" talk action, not
with a two-element talk-then-connect script. -/
theorem C1_counterexample : ¬ c1_asStated c1CexState c1CexReq := by
  intro h
  obtain ⟨e, he, hr⟩ := h (by decide) (by decide)
  simp [c1CexState] at he
  subst he
  exact absurd hr (by decide)

/-- C1 (amended): for every authenticated request, if the directory is
non-empty and its first entry's phone is present and non-empty, the
webhook responds 200 with exactly the talk action naming that entry
followed by the connect action to that entry's phone. -/
theorem C1_theorem (st : ServerState) (req : Request)
    (e : Employee) (rest : List Employee)
    (hdir : st.directory = e :: rest)
    (hauth : authenticated st req = true)
    (hphone : truthyStr e.phone = true) :
    (handle_webhook st req).1 = ⟨200, ResponseBody.actions
      [Action.talk ("Connecting you to our representative, "
          ++ pyStr e.name ++ "."),
       Action.connect [⟨"phone", e.phone.getD ""⟩]]⟩ := by
  rw [handle_webhook_fst_authed st req hauth, hdir]
  simp [webhookActions, hphone]

/-- C1 witness: a concrete directory headed by Alice with a phone yields
the two-element script. -/
theorem C1_witness :
    (handle_webhook ⟨"k1", [⟨some "Alice", some "+15551111111"⟩], []⟩
        ⟨some "k1", "198.51.100.1", some "event"⟩).1
      = ⟨200, ResponseBody.actions
          [Action.talk "Connecting you to our representative, Alice.",
           Action.connect [⟨"phone", "+15551111111"⟩]]⟩ := by
  simpa using
    C1_theorem ⟨"k1", [⟨some "Alice", some "+15551111111"⟩], []⟩
      ⟨some "k1", "198.51.100.1", some "event"⟩
      ⟨some "Alice", some "+15551111111"⟩ [] rfl (by decide) (by decide)

/-- C2: a request whose `X-API-Key` header is absent or differs from the
configured key is answered 401 `Unauthorized`, and the same answer results
for every possible body (valid or not): the body plays no part in the
rejection. -/
theorem C2_theorem (st : ServerState) (req : Request)
    (h : req.x_api_key = none ∨ req.x_api_key ≠ some st.API_KEY) :
    (handle_webhook st req).1 = ⟨401, ResponseBody.error "Unauthorized"⟩ ∧
    ∀ b : Option String,
      (handle_webhook st { req with body := b }).1
        = ⟨401, ResponseBody.error "Unauthorized"⟩ := by
  have hrej : rejectsKey st.API_KEY req.x_api_key = true := by
    rcases h with h | h
    · simp [rejectsKey, h, truthyStr]
    · rcases hk : req.x_api_key with _ | k
      · simp [rejectsKey, truthyStr]
      · rw [hk] at h
        simp [rejectsKey, truthyStr]
        exact Or.inr (fun hEq => h (by rw [hEq]))
  constructor
  · simp [handle_webhook, require_api_key, hrej]
  · intro b
    simp [handle_webhook, require_api_key, hrej]

/-- C2 witness: a request with no `X-API-Key` header is rejected, with an
unparseable body and with a parseable one alike. -/
theorem C2_witness :
    (handle_webhook ⟨"secret", [], []⟩ ⟨none, "203.0.113.9", none⟩).1
        = ⟨401, ResponseBody.error "Unauthorized"⟩ ∧
    (handle_webhook ⟨"secret", [], []⟩ ⟨none, "203.0.113.9", some "event"⟩).1
        = ⟨401, ResponseBody.error "Unauthorized"⟩ := by
  have h := C2_theorem ⟨"secret", [], []⟩ ⟨none, "203.0.113.9", none⟩ (Or.inl rfl)
  exact ⟨h.1, h.2 (some "event")⟩

/-- C3: every authenticated request is answered with status 200, whatever
the directory contents. -/
theorem C3_theorem (st : ServerState) (req : Request)
    (hauth : authenticated st req = true) :
    (handle_webhook st req).1.status = 200 := by
  rw [handle_webhook_fst_authed st req hauth]

/-- C3 witness: status 200 with an empty directory. -/
theorem C3_witness :
    (handle_webhook ⟨"k3", [], []⟩ ⟨some "k3", "192.0.2.5", some "event"⟩).1.status
      = 200 :=
  C3_theorem ⟨"k3", [], []⟩ ⟨some "k3", "192.0.2.5", some "event"⟩ (by decide)

/-- C4: for an authenticated request against an empty directory the
webhook answers 200 with the single "no employees available" talk
action — a success response, not an error. -/
theorem C4_theorem (st : ServerState) (req : Request)
    (hauth : authenticated st req = true)
    (hdir : st.directory = []) :
    (handle_webhook st req).1 = ⟨200, ResponseBody.actions
      [Action.talk "No employees are available to take your call at this time."]⟩ := by
  rw [handle_webhook_fst_authed st req hauth, hdir]
  simp [webhookActions]

/-- C4 witness: the empty-directory response at a concrete request. -/
theorem C4_witness :
    (handle_webhook ⟨"k4", [], []⟩ ⟨some "k4", "192.0.2.6", some "event"⟩).1
      = ⟨200, ResponseBody.actions
          [Action.talk "No employees are available to take your call at this time."]⟩ :=
  C4_theorem ⟨"k4", [], []⟩ ⟨some "k4", "192.0.2.6", some "event"⟩
    (by decide) rfl

/-- C5 fails as stated: a load failure other than a missing file or a
JSON decode error — for example a `PermissionError` from `open`, or a
`UnicodeDecodeError` from a directory file that is not valid UTF-8 — is a
read/parse failure, yet it propagates and aborts startup instead of
leaving the directory empty. -/
theorem C5_counterexample :
    LoadOutcome.isFailure LoadOutcome.otherError = true ∧
    load_directory LoadOutcome.otherError = Except.error () ∧
    load_directory LoadOutcome.otherError ≠ Except.ok ([] : List Employee) := by
  refine ⟨rfl, rfl, ?_⟩
  intro h
  simp [load_directory] at h

/-- C5 (amended): when the startup load fails with a missing file
(`FileNotFoundError`) or a JSON parse failure (`json.JSONDecodeError`),
the directory becomes the empty sequence and startup continues; any other
exception propagates. -/
theorem C5_theorem (o : LoadOutcome)
    (h : o = LoadOutcome.fileNotFound ∨ o = LoadOutcome.jsonDecodeError) :
    load_directory o = Except.ok ([] : List Employee) := by
  rcases h with h | h <;> rw [h] <;> rfl

/-- C5 witness: the missing-file outcome yields the empty directory. -/
theorem C5_witness :
    load_directory LoadOutcome.fileNotFound = Except.ok ([] : List Employee) :=
  C5_theorem LoadOutcome.fileNotFound (Or.inl rfl)

/-- Two entries named Bob: the first has an empty phone, the second a
real one. -/
def c6CexDirectory : List Employee :=
  [⟨some "Bob", some ""⟩, ⟨some "Bob", some "+15551112222"⟩]

/-- C6 fails as stated: in `c6CexDirectory` the first entry whose name
matches "bob" and whose phone is non-empty is the second Bob, so the
claim demands `Routed "+15551112222"`; the router instead takes the first
name match (the phoneless Bob) and, finding its phone empty, returns
`NotFound` without falling through. -/
theorem C6_counterexample :
    c6_asStated c6CexDirectory "t1" "bob" = false ∧
    firstEligible c6CexDirectory "bob"
      = some ⟨some "Bob", some "+15551112222"⟩ ∧
    route_policy_a c6CexDirectory "t1" "bob"
      = RoutingOutcome.NotFound "t1" "bob" := by
  refine ⟨?_, ?_, ?_⟩ <;> decide

/-- C6 (amended): Policy A routes on the first name match in directory
order — `Routed` with its phone when that entry's phone is non-empty,
`NotFound` when that first match has an empty or absent phone — and
returns `NotFound` when no entry's name matches at all; later matches are
never consulted. -/
theorem C6_theorem (directory : List Employee)
    (toolCallId requestedParty : String) :
    (∀ (pre post : List Employee) (e : Employee),
        directory = pre ++ e :: post →
        (∀ x ∈ pre, nameMatches x requestedParty = false) →
        nameMatches e requestedParty = true →
        route_policy_a directory toolCallId requestedParty =
          if truthyStr e.phone then
            RoutingOutcome.Routed toolCallId (e.phone.getD "")
          else
            RoutingOutcome.NotFound toolCallId requestedParty) ∧
    ((∀ x ∈ directory, nameMatches x requestedParty = false) →
        route_policy_a directory toolCallId requestedParty =
          RoutingOutcome.NotFound toolCallId requestedParty) := by
  constructor
  · intro pre post e hsplit hpre he
    rw [route_policy_a, hsplit,
      find?_of_clean_front (fun x => nameMatches x requestedParty) pre post e hpre he]
  · intro hall
    rw [route_policy_a, List.find?_eq_none.2 (by simpa using hall)]

/-- C6 witness: a single matching entry with a phone routes to it, and a
directory whose only name does not match yields `NotFound`. -/
theorem C6_witness :
    route_policy_a [⟨some "Carol", some "+15553334444"⟩] "t9" "carol"
      = RoutingOutcome.Routed "t9" "+15553334444" ∧
    route_policy_a [⟨some "Carol", some "+15553334444"⟩] "t9" "dave"
      = RoutingOutcome.NotFound "t9" "dave" := by
  have hc := C6_theorem [⟨some "Carol", some "+15553334444"⟩] "t9" "carol"
  have hd := C6_theorem [⟨some "Carol", some "+15553334444"⟩] "t9" "dave"
  refine ⟨?_, hd.2 (by decide)⟩
  simpa using hc.1 [] [] ⟨some "Carol", some "+15553334444"⟩ rfl (by simp) (by decide)

/-- C7: two authenticated requests with parseable bodies against the same
state receive identical responses — the body contents never influence the
routing decision or the response. -/
theorem C7_theorem (st : ServerState) (r1 r2 : Request)
    (h1 : authenticated st r1 = true) (h2 : authenticated st r2 = true)
    (_hb1 : r1.body.isSome = true) (_hb2 : r2.body.isSome = true) :
    (handle_webhook st r1).1 = (handle_webhook st r2).1 := by
  rw [handle_webhook_fst_authed st r1 h1, handle_webhook_fst_authed st r2 h2]

/-- C7 witness: two authenticated requests with different bodies get the
same response. -/
theorem C7_witness :
    (handle_webhook ⟨"k7", [⟨some "Eve", some "+15550009999"⟩], []⟩
        ⟨some "k7", "192.0.2.8", some "payload one"⟩).1
      = (handle_webhook ⟨"k7", [⟨some "Eve", some "+15550009999"⟩], []⟩
          ⟨some "k7", "192.0.2.9", some "payload two"⟩).1 :=
  C7_theorem ⟨"k7", [⟨some "Eve", some "+15550009999"⟩], []⟩
    ⟨some "k7", "192.0.2.8", some "payload one"⟩
    ⟨some "k7", "192.0.2.9", some "payload two"⟩
    (by decide) (by decide) (by decide) (by decide)

/-- C8: handling the same request twice in sequence produces the same
response both times — the handler carries no state between invocations
that could affect its outcome (only the log grows). -/
theorem C8_theorem (st : ServerState) (req : Request) :
    (handle_webhook (handle_webhook st req).2 req).1
      = (handle_webhook st req).1 :=
  handle_webhook_fst_congr st (handle_webhook st req).2 req
    (handle_webhook_preserves st req).1
    (handle_webhook_preserves st req).2

/-- C9: the request handler never mutates the directory or the API key:
the state it returns carries them unchanged, so every request observes the
values produced at startup. -/
theorem C9_theorem (st : ServerState) (req : Request) :
    (handle_webhook st req).2.directory = st.directory ∧
    (handle_webhook st req).2.API_KEY = st.API_KEY :=
  handle_webhook_preserves st req

/-- C10: when the directory is non-empty but its first entry's phone is
empty or absent, an authenticated request gets the single "no employees
available" talk action with status 200 — no connect action, and no
fallthrough to a later entry that does have a phone. -/
theorem C10_theorem (st : ServerState) (req : Request)
    (e : Employee) (rest : List Employee)
    (hdir : st.directory = e :: rest)
    (hauth : authenticated st req = true)
    (hphone : truthyStr e.phone = false) :
    (handle_webhook st req).1 = ⟨200, ResponseBody.actions
      [Action.talk "No employees are available to take your call at this time."]⟩ := by
  rw [handle_webhook_fst_authed st req hauth, hdir]
  simp [webhookActions, hphone]

/-- C10 witness: first entry phoneless Bob, second entry Alice with a
phone — the response is still the single talk action, never Alice. -/
theorem C10_witness :
    (handle_webhook
        ⟨"k10", [⟨some "Bob", some ""⟩, ⟨some "Alice", some "+15551111111"⟩], []⟩
        ⟨some "k10", "192.0.2.10", some "event"⟩).1
      = ⟨200, ResponseBody.actions
          [Action.talk "No employees are available to take your call at this time."]⟩ :=
  C10_theorem
    ⟨"k10", [⟨some "Bob", some ""⟩, ⟨some "Alice", some "+15551111111"⟩], []⟩
    ⟨some "k10", "192.0.2.10", some "event"⟩
    ⟨some "Bob", some ""⟩ [⟨some "Alice", some "+15551111111"⟩]
    rfl (by decide) (by decide)

end Vapi
